import Mathlib

/-!
# Verification of the stock/debt accounting core of the saas-gyh backend

Shallow embedding of the backend's unit-conversion, stock aggregation,
sale/intake workflows and debt-ledger rules.

Conventions of the embedding:
* Python `float` and `Decimal` values are both modelled as `ℚ` (the claims
  under scrutiny do not hinge on binary floating-point rounding, and the code
  never rounds before persisting).
* Timestamps are opaque `Nat` values; the clock (`now_lima`) is passed as an
  explicit argument, following the spec's clock/timezone interface.
* The database session is modelled as an explicit `DB` value holding the
  entity tables as lists; `db.add` appends, `commit` is the identity (each
  service function runs inside one transaction and we only observe committed
  states), and SQLAlchemy's autoflush means an aggregate `select` issued
  mid-transaction sees rows added earlier in the same transaction.
* Python truthiness tests on optional integers (`if not client_id`) are
  modelled as `o.getD 0 = 0`, which is falsy exactly for `None` and `0`.
* Raised exceptions become `Except AppError` results.
-/

/-! ## Data model (models.py) -/

inductive VentaType where
  | CAJA
  | PEDIDO
deriving DecidableEq, Repr

structure Client where
  id : Nat
  name : String
  current_debt : ℚ
deriving DecidableEq, Repr

structure ClientPayment where
  client_id : Nat
  amount : ℚ
  notes : Option String
deriving DecidableEq, Repr

structure Product where
  id : Nat
  name : String
  type : String
  quality : String
  conversion_factor : ℚ
deriving DecidableEq, Repr

structure IngresoLote where
  id : Nat
  date : Nat
  truck_id : String
deriving DecidableEq, Repr

structure IngresoItem where
  ingreso_lote_id : Nat
  supplier_name : String
  product_id : Nat
  total_kg : ℚ
  conversion_factor : ℚ
  total_javas : ℚ
  cost_per_java : ℚ
  total_cost : ℚ
deriving DecidableEq, Repr

/-- Legacy single-supplier intake row (`class Ingreso`, models.py): still read
by the legacy sale route's stock map. -/
structure Ingreso where
  id : Nat
  truck_id : String
  supplier_name : String
  product_id : Nat
  total_kg : ℚ
  conversion_factor : ℚ
  total_javas : ℚ
  unit_cost_price : ℚ
deriving DecidableEq, Repr

structure Venta where
  id : Nat
  date : Nat
  type : VentaType
  client_id : Option Nat
  user_id : Nat
  total_amount : ℚ
  is_printed : Bool
deriving DecidableEq, Repr

structure VentaItem where
  venta_id : Nat
  product_id : Nat
  quantity_kg : ℚ
  quantity_javas : ℚ
  conversion_factor : ℚ
  price_per_kg : ℚ
  subtotal : ℚ
deriving DecidableEq, Repr

/-- The persistent store: entity tables plus an id generator standing for the
primary-key autoincrement handed out by `db.flush()`. -/
structure DB where
  products : List Product
  clients : List Client
  ingresos : List Ingreso
  ingreso_lotes : List IngresoLote
  ingreso_items : List IngresoItem
  ventas : List Venta
  venta_items : List VentaItem
  payments : List ClientPayment
  next_id : Nat
deriving DecidableEq, Repr

deriving instance DecidableEq for Except

/-! ## Error taxonomy (utils/exceptions.py, plus FastAPI HTTPException) -/

inductive AppError where
  | notFound (resource : String) (identifier : Nat)
  | validationError (message : String) (field : String)
  | stockInsuficiente (product_name : String) (available : ℚ) (requested : ℚ)
  | httpException (status_code : Nat) (detail : String)
deriving DecidableEq, Repr

/-! ## Stock service (services/stock_service.py) -/

namespace StockService

structure StockInfo where
  product_id : Nat
  product_name : String
  total_ingreso_kg : ℚ
  total_ingreso_javas : ℚ
  total_vendido_kg : ℚ
  total_vendido_javas : ℚ
  costo_promedio_java : ℚ
deriving DecidableEq, Repr

/-- Property `StockInfo.stock_disponible_kg`: `max(0, total_ingreso_kg - total_vendido_kg)`.
Python's binary `max(0, v)` is written as the equivalent conditional so that the
kernel can evaluate it (Mathlib's `max` on `ℚ` does not reduce); the equality
with `max` is proved in the stock-clamping theorem below. -/
def StockInfo.stock_disponible_kg (s : StockInfo) : ℚ :=
  if s.total_ingreso_kg - s.total_vendido_kg < 0 then 0
  else s.total_ingreso_kg - s.total_vendido_kg

/-- Property `StockInfo.stock_disponible_javas`: `max(0, total_ingreso_javas - total_vendido_javas)`. -/
def StockInfo.stock_disponible_javas (s : StockInfo) : ℚ :=
  if s.total_ingreso_javas - s.total_vendido_javas < 0 then 0
  else s.total_ingreso_javas - s.total_vendido_javas

/-- Aggregate `SUM(ingreso_items.total_kg) GROUP BY product_id` for one product. -/
def totalIngresoKg (db : DB) (pid : Nat) : ℚ :=
  ((db.ingreso_items.filter (fun it => it.product_id == pid)).map IngresoItem.total_kg).sum

def totalIngresoJavas (db : DB) (pid : Nat) : ℚ :=
  ((db.ingreso_items.filter (fun it => it.product_id == pid)).map IngresoItem.total_javas).sum

def totalIngresoCost (db : DB) (pid : Nat) : ℚ :=
  ((db.ingreso_items.filter (fun it => it.product_id == pid)).map IngresoItem.total_cost).sum

def totalVendidoKg (db : DB) (pid : Nat) : ℚ :=
  ((db.venta_items.filter (fun it => it.product_id == pid)).map VentaItem.quantity_kg).sum

def totalVendidoJavas (db : DB) (pid : Nat) : ℚ :=
  ((db.venta_items.filter (fun it => it.product_id == pid)).map VentaItem.quantity_javas).sum

/-- The `StockInfo` built for one product inside `get_stock_by_product`'s
loop over all products (missing aggregation rows default to 0). -/
def stockInfoFor (db : DB) (p : Product) : StockInfo :=
  let total_ingreso_javas := totalIngresoJavas db p.id
  let total_cost := totalIngresoCost db p.id
  { product_id := p.id
    product_name := p.name
    total_ingreso_kg := totalIngresoKg db p.id
    total_ingreso_javas := total_ingreso_javas
    total_vendido_kg := totalVendidoKg db p.id
    total_vendido_javas := totalVendidoJavas db p.id
    costo_promedio_java := if total_ingreso_javas > 0 then total_cost / total_ingreso_javas else 0 }

/-- Function `get_stock_by_product`: one entry per existing product. -/
def get_stock_by_product (db : DB) : List (Nat × StockInfo) :=
  db.products.map (fun p => (p.id, stockInfoFor db p))

/-- Function `get_product_stock`: raises `NotFoundError` when the product id is not a
key of the stock map. -/
def get_product_stock (db : DB) (product_id : Nat) : Except AppError StockInfo :=
  match (get_stock_by_product db).find? (fun pr => pr.1 == product_id) with
  | some pr => .ok pr.2
  | none => .error (.notFound "Producto" product_id)

/-- Function `validate_stock_disponible`: raises `StockInsuficienteError` when
`stock_disponible_kg < cantidad_kg`, else returns `True`. -/
def validate_stock_disponible (db : DB) (product_id : Nat) (cantidad_kg : ℚ) :
    Except AppError Bool :=
  match get_product_stock db product_id with
  | .error e => .error e
  | .ok stock_info =>
    if stock_info.stock_disponible_kg < cantidad_kg then
      .error (.stockInsuficiente stock_info.product_name
        stock_info.stock_disponible_kg cantidad_kg)
    else
      .ok true

end StockService

/-! ## Intake service (services/ingreso_service.py) -/

namespace IngresoService

structure CalculatedItem where
  total_javas : ℚ
  cost_per_java : ℚ
  total_cost : ℚ
deriving DecidableEq, Repr

/-- Function `calculate_item_costs`: single source of truth for intake line math. -/
def calculate_item_costs (total_kg conversion_factor cost_price_input : ℚ)
    (cost_price_mode : String) : Except AppError CalculatedItem :=
  if total_kg ≤ 0 then
    .error (.validationError "El total en KG debe ser mayor a 0" "total_kg")
  else if conversion_factor ≤ 0 then
    .error (.validationError "El factor de conversión debe ser mayor a 0" "conversion_factor")
  else if cost_price_input ≤ 0 then
    .error (.validationError "El precio de costo debe ser mayor a 0" "cost_price_input")
  else if cost_price_mode ≠ "KG" ∧ cost_price_mode ≠ "JAVA" then
    .error (.validationError "Modo de precio debe ser KG o JAVA" "cost_price_mode")
  else
    let total_javas := total_kg / conversion_factor
    let cost_per_java :=
      if cost_price_mode = "KG" then cost_price_input * conversion_factor
      else cost_price_input
    let total_cost := cost_per_java * total_javas
    .ok { total_javas := total_javas, cost_per_java := cost_per_java, total_cost := total_cost }

/-- One entry of `items_data` for `create_ingreso_lote`.  Dictionary keys read
with `.get(key, default)` become `Option` fields; `total_kg` and
`cost_price_input` default to `0` when absent (and then fail the `> 0`
validation), so they are carried directly. -/
structure IngresoItemData where
  supplier_name : String
  product_id : Option Nat
  total_kg : ℚ
  conversion_factor : Option ℚ
  cost_price_input : ℚ
  cost_price_mode : Option String
deriving DecidableEq, Repr

/-- The per-item loop of `create_ingreso_lote` (validate, compute costs,
`db.add(item)`).  `idx` is the 1-based item position used in error messages. -/
def process_ingreso_items (db : DB) (lote_id : Nat) (idx : Nat) :
    List IngresoItemData → Except AppError DB
  | [] => .ok db
  | item_data :: rest =>
    let supplier_name := item_data.supplier_name.trim
    if supplier_name = "" then
      .error (.validationError s!"Proveedor requerido en item {idx}" "supplier_name")
    else
      let pid := item_data.product_id.getD 0
      if pid = 0 then
        .error (.validationError s!"Producto requerido en item {idx}" "product_id")
      else
        match db.products.find? (fun p => p.id == pid) with
        | none => .error (.notFound "Producto" pid)
        | some product =>
          match calculate_item_costs item_data.total_kg
              (item_data.conversion_factor.getD product.conversion_factor)
              item_data.cost_price_input
              (item_data.cost_price_mode.getD "JAVA") with
          | .error e => .error e
          | .ok calculated =>
            let item : IngresoItem :=
              { ingreso_lote_id := lote_id
                supplier_name := supplier_name
                product_id := pid
                total_kg := item_data.total_kg
                conversion_factor := item_data.conversion_factor.getD product.conversion_factor
                total_javas := calculated.total_javas
                cost_per_java := calculated.cost_per_java
                total_cost := calculated.total_cost }
            process_ingreso_items
              { db with ingreso_items := db.ingreso_items ++ [item] }
              lote_id (idx + 1) rest

/-- Function `create_ingreso_lote(db, truck_id, items_data, date=None)`.
`now_lima` is the clock value; the `date` argument mirrors the Python
parameter of the same name. -/
def create_ingreso_lote (db : DB) (now_lima : Nat) (truck_id : String)
    (items_data : List IngresoItemData) (date : Option Nat) :
    Except AppError (DB × IngresoLote) :=
  if truck_id.trim.length < 3 then
    .error (.validationError "La placa del camión debe tener al menos 3 caracteres" "truck_id")
  else if items_data.isEmpty then
    .error (.validationError "Debe incluir al menos un proveedor/producto" "items")
  else
    let lote : IngresoLote :=
      { id := db.next_id, date := now_lima, truck_id := truck_id.trim.toUpper }
    let db1 : DB :=
      { db with ingreso_lotes := db.ingreso_lotes ++ [lote], next_id := db.next_id + 1 }
    match process_ingreso_items db1 lote.id 1 items_data with
    | .error e => .error e
    | .ok db2 => .ok (db2, lote)

end IngresoService

/-! ## Sale service (services/venta_service.py) -/

namespace VentaService

structure CalculatedVentaItem where
  quantity_kg : ℚ
  quantity_javas : ℚ
  conversion_factor : ℚ
  price_per_kg : ℚ
  subtotal : ℚ
deriving DecidableEq, Repr

/-- Function `calculate_venta_item`: single source of truth for sale line math. -/
def calculate_venta_item (quantity_kg conversion_factor price_per_kg : ℚ) :
    Except AppError CalculatedVentaItem :=
  if quantity_kg ≤ 0 then
    .error (.validationError "La cantidad en KG debe ser mayor a 0" "quantity_kg")
  else if conversion_factor ≤ 0 then
    .error (.validationError "El factor de conversión debe ser mayor a 0" "conversion_factor")
  else if price_per_kg ≤ 0 then
    .error (.validationError "El precio por KG debe ser mayor a 0" "price_per_kg")
  else
    .ok { quantity_kg := quantity_kg
          quantity_javas := quantity_kg / conversion_factor
          conversion_factor := conversion_factor
          price_per_kg := price_per_kg
          subtotal := quantity_kg * price_per_kg }

/-- One entry of `items_data` for `create_venta` / `update_venta`. -/
structure VentaItemData where
  product_id : Option Nat
  quantity_kg : ℚ
  price_per_kg : ℚ
deriving DecidableEq, Repr

/-- Updates every client row carrying the given id (primary keys are unique,
so at most one row changes on a well-formed database). -/
def update_client (db : DB) (cid : Nat) (f : ℚ → ℚ) : DB :=
  { db with clients := db.clients.map fun c =>
      if c.id = cid then { c with current_debt := f c.current_debt } else c }

def update_venta_record (db : DB) (vid : Nat) (f : Venta → Venta) : DB :=
  { db with ventas := db.ventas.map (fun v => if v.id = vid then f v else v) }

/-- The per-item loop of the service-layer `create_venta`: product lookup,
stock validation, line math, `db.add(item)` and running total.  The db is
threaded through so that the aggregate queries issued by
`validate_stock_disponible` on later lines see the rows added for earlier
lines of the same sale (SQLAlchemy autoflush inside one transaction). -/
def process_venta_items (db : DB) (venta_id : Nat) (total : ℚ) (idx : Nat) :
    List VentaItemData → Except AppError (DB × ℚ)
  | [] => .ok (db, total)
  | item_data :: rest =>
    let pid := item_data.product_id.getD 0
    if pid = 0 then
      .error (.validationError s!"Producto requerido en item {idx}" "product_id")
    else
      match db.products.find? (fun p => p.id == pid) with
      | none => .error (.notFound "Producto" pid)
      | some product =>
        match StockService.validate_stock_disponible db pid item_data.quantity_kg with
        | .error e => .error e
        | .ok _ =>
          match calculate_venta_item item_data.quantity_kg product.conversion_factor
              item_data.price_per_kg with
          | .error e => .error e
          | .ok calculated =>
            let item : VentaItem :=
              { venta_id := venta_id
                product_id := pid
                quantity_kg := calculated.quantity_kg
                quantity_javas := calculated.quantity_javas
                conversion_factor := calculated.conversion_factor
                price_per_kg := calculated.price_per_kg
                subtotal := calculated.subtotal }
            process_venta_items
              { db with venta_items := db.venta_items ++ [item] }
              venta_id (total + calculated.subtotal) (idx + 1) rest

/-- Function `create_venta(db, user_id, venta_type, items_data, client_id=None)`.
Returns the updated store and the id of the created sale. -/
def create_venta (db : DB) (now_lima : Nat) (user_id : Nat) (venta_type : VentaType)
    (items_data : List VentaItemData) (client_id : Option Nat) :
    Except AppError (DB × Nat) :=
  if venta_type = .PEDIDO ∧ client_id.getD 0 = 0 then
    .error (.validationError "Las ventas a crédito requieren un cliente" "client_id")
  else if items_data.isEmpty then
    .error (.validationError "Debe incluir al menos un producto" "items")
  else
    let cid := client_id.getD 0
    if cid ≠ 0 ∧ (db.clients.find? (fun c => c.id == cid)).isNone then
      .error (.notFound "Cliente" cid)
    else
      let venta : Venta :=
        { id := db.next_id
          date := now_lima
          type := venta_type
          client_id := client_id
          user_id := user_id
          total_amount := 0
          is_printed := false }
      let db1 : DB := { db with ventas := db.ventas ++ [venta], next_id := db.next_id + 1 }
      match process_venta_items db1 venta.id 0 1 items_data with
      | .error e => .error e
      | .ok (db2, total_amount) =>
        let db3 := update_venta_record db2 venta.id
          (fun v => { v with total_amount := total_amount })
        let db4 :=
          if venta_type = .PEDIDO ∧ cid ≠ 0 then
            update_client db3 cid (fun d => d + total_amount)
          else db3
        .ok (db4, venta.id)

/-- Function `get_venta`: lookup with `NotFoundError`. -/
def get_venta (db : DB) (venta_id : Nat) : Except AppError Venta :=
  match db.ventas.find? (fun v => v.id == venta_id) with
  | some venta => .ok venta
  | none => .error (.notFound "Venta" venta_id)

/-- The debt-reversal block shared verbatim by `delete_venta` and
`update_venta`: for a PEDIDO sale whose client relationship is loaded,
`client.current_debt -= venta.total_amount`, set to zero if negative. -/
def revert_client_debt (db : DB) (venta : Venta) : DB :=
  if venta.type = .PEDIDO ∧ venta.client_id.getD 0 ≠ 0 ∧
      (db.clients.find? (fun c => c.id == venta.client_id.getD 0)).isSome then
    update_client db (venta.client_id.getD 0) (fun d =>
      let d1 := d - venta.total_amount
      if d1 < 0 then 0 else d1)
  else db

/-- Function `delete_venta`: revert client debt for PEDIDO (clamped at zero), then
delete the sale, cascading its line items. -/
def delete_venta (db : DB) (venta_id : Nat) : Except AppError DB :=
  match get_venta db venta_id with
  | .error e => .error e
  | .ok venta =>
    let db1 := revert_client_debt db venta
    .ok { db1 with
          ventas := db1.ventas.filter (fun v => v.id ≠ venta_id)
          venta_items := db1.venta_items.filter (fun it => it.venta_id ≠ venta_id) }

/-- The per-item loop of `update_venta`: identical to the create loop except
that no stock validation is performed. -/
def process_venta_items_update (db : DB) (venta_id : Nat) (total : ℚ) (idx : Nat) :
    List VentaItemData → Except AppError (DB × ℚ)
  | [] => .ok (db, total)
  | item_data :: rest =>
    let pid := item_data.product_id.getD 0
    if pid = 0 then
      .error (.validationError s!"Producto requerido en item {idx}" "product_id")
    else
      match db.products.find? (fun p => p.id == pid) with
      | none => .error (.notFound "Producto" pid)
      | some product =>
        match calculate_venta_item item_data.quantity_kg product.conversion_factor
            item_data.price_per_kg with
        | .error e => .error e
        | .ok calculated =>
          let item : VentaItem :=
            { venta_id := venta_id
              product_id := pid
              quantity_kg := calculated.quantity_kg
              quantity_javas := calculated.quantity_javas
              conversion_factor := calculated.conversion_factor
              price_per_kg := calculated.price_per_kg
              subtotal := calculated.subtotal }
          process_venta_items_update
            { db with venta_items := db.venta_items ++ [item] }
            venta_id (total + calculated.subtotal) (idx + 1) rest

/-- Function `update_venta(db, venta_id, items_data, client_id=None)`: full reversal of
the old credit (clamped at zero), wholesale line replacement, reapplication of
the new total to the (possibly changed) client. -/
def update_venta (db : DB) (now_lima : Nat) (venta_id : Nat)
    (items_data : List VentaItemData) (client_id : Option Nat) :
    Except AppError DB :=
  match get_venta db venta_id with
  | .error e => .error e
  | .ok venta =>
    if items_data.isEmpty then
      .error (.validationError "Debe incluir al menos un producto" "items")
    else if venta.type = .PEDIDO ∧ client_id.getD 0 = 0 then
      .error (.validationError "Las ventas a crédito requieren un cliente" "client_id")
    else
      -- Revert old client debt (PEDIDO with a loaded client relationship only)
      let db1 := revert_client_debt db venta
      -- Update the client reference when a different client id is supplied
      let cid := client_id.getD 0
      let change := cid ≠ 0 ∧ client_id ≠ venta.client_id
      if change ∧ (db1.clients.find? (fun c => c.id == cid)).isNone then
        .error (.notFound "Cliente" cid)
      else
        let new_client_id := if change then client_id else venta.client_id
        -- Delete old items, then process the new ones (no stock validation)
        let db2 : DB :=
          { db1 with venta_items := db1.venta_items.filter (fun it => it.venta_id ≠ venta_id) }
        match process_venta_items_update db2 venta_id 0 1 items_data with
        | .error e => .error e
        | .ok (db3, total_amount) =>
          let db4 := update_venta_record db3 venta_id (fun v =>
            { v with client_id := new_client_id, total_amount := total_amount,
                     date := now_lima })
          let new_cid := new_client_id.getD 0
          let db5 :=
            if venta.type = .PEDIDO ∧ new_cid ≠ 0 ∧
                (db4.clients.find? (fun c => c.id == new_cid)).isSome then
              update_client db4 new_cid (fun d => d + total_amount)
            else db4
          .ok db5

end VentaService

/-! ## Payment endpoint (main.py, `create_payment`) -/

namespace MainApi

/-- Route handler for posting a client payment: looks the client up, creates the
payment row, and reduces `current_debt`, clamping at zero.  Note that the
route and the `ClientPaymentCreate` schema perform no validation of `amount`
whatsoever. -/
def create_payment (db : DB) (client_id : Nat) (amount : ℚ) (notes : Option String) :
    Except AppError (DB × ClientPayment) :=
  match db.clients.find? (fun c => c.id == client_id) with
  | none => .error (.httpException 404 "Cliente no encontrado")
  | some db_client =>
    let db_payment : ClientPayment := { client_id := client_id, amount := amount, notes := notes }
    let new_debt := db_client.current_debt - amount
    let new_debt := if new_debt < 0 then 0 else new_debt
    .ok ({ db with
            payments := db.payments ++ [db_payment]
            clients := db.clients.map (fun c =>
              if c.id = client_id then { c with current_debt := new_debt } else c) },
         db_payment)

end MainApi

/-! ## Legacy sale route (routers/ventas.py) -/

namespace RoutersVentas

/-- Function `get_stock_map`: available stock per product in javas, computed from the
legacy `ingresos` table minus `venta_items`, with absent aggregation rows
defaulting to 0 (`stock_map.get(pid, 0)`).  Not clamped. -/
def get_stock_map (db : DB) (pid : Nat) : ℚ :=
  ((db.ingresos.filter (fun i => i.product_id == pid)).map Ingreso.total_javas).sum
    - ((db.venta_items.filter (fun it => it.product_id == pid)).map VentaItem.quantity_javas).sum

/-- Incoming item of the legacy sale payload (`VentaItemBase` shape read by
the route: `quantity_javas` is the user-entered quantity, `unit` selects its
unit). -/
structure LegacyVentaItemIn where
  product_id : Nat
  quantity_javas : ℚ
  unit : Option String
  unit_sale_price : ℚ
deriving DecidableEq, Repr

/-- One entry of the route's `venta_items_data` accumulator. -/
structure LegacyItemData where
  product_id : Nat
  quantity_javas : ℚ
  quantity_original : ℚ
  unit : String
  unit_sale_price : ℚ
deriving DecidableEq, Repr

/-- Unit resolution of the route (getattr with default JAVA, empty string
coerced to JAVA): absent and empty units default to JAVA. -/
def item_unit (item : LegacyVentaItemIn) : String :=
  let unit0 := item.unit.getD "JAVA"
  if unit0 = "" then "JAVA" else unit0

/-- The quantity in javas the route charges for a line: converted from kg via
the product's conversion factor (`or 20.0` on a zero/absent factor) when the
unit is KG, the raw entered quantity otherwise. -/
def item_javas (product : Product) (item : LegacyVentaItemIn) : ℚ :=
  if item_unit item = "KG" then
    let conversion_factor := if product.conversion_factor = 0 then 20
      else product.conversion_factor
    item.quantity_javas / conversion_factor
  else item.quantity_javas

/-- Step 3 of the route's `create_venta`: per line, product lookup, unit
conversion, validation of the requested javas against the in-memory
`stock_map`, total accumulation, append to `venta_items_data`, and decrement
of `stock_map` for subsequent items of the same product.  (The `:.2f`
formatting of the error detail is elided.) -/
def process_items (db : DB) (stock_map : Nat → ℚ) (total_amount : ℚ)
    (venta_items_data : List LegacyItemData) :
    List LegacyVentaItemIn → Except AppError ((Nat → ℚ) × ℚ × List LegacyItemData)
  | [] => .ok (stock_map, total_amount, venta_items_data)
  | item :: rest =>
    match db.products.find? (fun p => p.id == item.product_id) with
    | none => .error (.httpException 404 "Product not found")
    | some product =>
      let quantity_javas := item_javas product item
      let available_stock := stock_map item.product_id
      if quantity_javas > available_stock then
        .error (.httpException 400 "Stock insuficiente")
      else
        let item_total := quantity_javas * item.unit_sale_price
        let data : LegacyItemData :=
          { product_id := item.product_id
            quantity_javas := quantity_javas
            quantity_original := item.quantity_javas
            unit := item_unit item
            unit_sale_price := item.unit_sale_price }
        process_items db
          (fun q => if q = item.product_id then available_stock - quantity_javas
            else stock_map q)
          (total_amount + item_total)
          (venta_items_data ++ [data])
          rest

/-- The stock-checking phase of the route, exactly as `create_venta` invokes
it: the snapshot is taken once via `get_stock_map` and then threaded through
the item loop. -/
def create_venta_stock_phase (db : DB) (items : List LegacyVentaItemIn) :
    Except AppError ((Nat → ℚ) × ℚ × List LegacyItemData) :=
  process_items db (get_stock_map db) 0 [] items

/-- Total quantity (javas) consumed by the listed line items for one product. -/
def consumedJavas (datas : List LegacyItemData) (pid : Nat) : ℚ :=
  ((datas.filter (fun d => d.product_id == pid)).map LegacyItemData.quantity_javas).sum

end RoutersVentas

/-! ## Shared helper lemmas -/

/-- Python's `max(0, v)` and the clamping statement `if v < 0: v = 0` agree. -/
lemma clampZero_eq_max (x : ℚ) : (if x < 0 then 0 else x) = max 0 x := by
  by_cases h : x < 0
  · rw [if_pos h, max_eq_left h.le]
  · rw [if_neg h, max_eq_right (not_lt.mp h)]

lemma clampZero_nonneg (x : ℚ) : 0 ≤ (if x < 0 then 0 else x) := by
  by_cases h : x < 0
  · rw [if_pos h]
  · rw [if_neg h]; exact not_lt.mp h

lemma stock_disponible_kg_eq (s : StockService.StockInfo) :
    s.stock_disponible_kg = max 0 (s.total_ingreso_kg - s.total_vendido_kg) :=
  clampZero_eq_max _

lemma stock_disponible_javas_eq (s : StockService.StockInfo) :
    s.stock_disponible_javas = max 0 (s.total_ingreso_javas - s.total_vendido_javas) :=
  clampZero_eq_max _

/-! ## C5 — stock availability is the clamped difference of the aggregates -/

/-- C5: every entry of the stock aggregation satisfies
`stock_available_kg = max(0, total_intake_kg − total_sold_kg)` and
`stock_available_javas = max(0, total_intake_javas − total_sold_javas)`,
where the totals are the sums over all intake/sale line items of the product;
both figures are never negative. -/
theorem C5_stock_available_clamped (db : DB) (pid : Nat) (s : StockService.StockInfo)
    (hmem : (pid, s) ∈ StockService.get_stock_by_product db) :
    s.stock_disponible_kg =
      max 0 (StockService.totalIngresoKg db pid - StockService.totalVendidoKg db pid) ∧
    s.stock_disponible_javas =
      max 0 (StockService.totalIngresoJavas db pid - StockService.totalVendidoJavas db pid) ∧
    0 ≤ s.stock_disponible_kg ∧ 0 ≤ s.stock_disponible_javas := by
  obtain ⟨p, hp, heq⟩ := List.mem_map.mp hmem
  obtain ⟨rfl, rfl⟩ : p.id = pid ∧ StockService.stockInfoFor db p = s := by
    exact ⟨congrArg Prod.fst heq, congrArg Prod.snd heq⟩
  exact ⟨clampZero_eq_max _, clampZero_eq_max _, clampZero_nonneg _, clampZero_nonneg _⟩

/-- The product used by the concrete stores below. -/
def kion : Product := ⟨1, "Kion", "Kion", "Primera", 20⟩

/-- Concrete store where product 1 is oversold: 50 kg of intake, 100 kg of
recorded sales. -/
def dbOversold : DB :=
  { products := [kion]
    clients := [], ingresos := [], ingreso_lotes := []
    ingreso_items := [⟨1, "Prov", 1, 50, 20, (5:ℚ)/2, 40, 100⟩]
    ventas := [], venta_items := [⟨1, 1, 100, 5, 20, 2, 200⟩]
    payments := [], next_id := 2 }

/-- C5 witness: a store holding 50 kg of intake and 100 kg of sales for
product 1 yields availability 0, never a negative figure. -/
theorem C5_stock_available_clamped_witness :
    ((1 : Nat), StockService.stockInfoFor dbOversold kion) ∈
      StockService.get_stock_by_product dbOversold ∧
    (StockService.stockInfoFor dbOversold kion).stock_disponible_kg =
      max 0 (StockService.totalIngresoKg dbOversold 1 -
        StockService.totalVendidoKg dbOversold 1) ∧
    (StockService.stockInfoFor dbOversold kion).stock_disponible_kg = 0 := by
  refine ⟨by with_unfolding_all decide, ?_, by with_unfolding_all decide⟩
  exact (C5_stock_available_clamped dbOversold 1 _ (by with_unfolding_all decide)).1

/-! ## C6 — stock validation succeeds exactly when enough kg are available -/

/-- C6: for an existing product, `validate_stock_disponible` succeeds iff the
computed `stock_disponible_kg` is at least the requested amount, and on
shortfall it fails with `StockInsuficienteError` carrying the product name,
the available kg and the requested kg. -/
theorem C6_validate_stock_iff (db : DB) (pid : Nat) (req : ℚ)
    (info : StockService.StockInfo)
    (hok : StockService.get_product_stock db pid = .ok info) :
    (StockService.validate_stock_disponible db pid req = .ok true ↔
      req ≤ info.stock_disponible_kg) ∧
    (info.stock_disponible_kg < req →
      StockService.validate_stock_disponible db pid req =
        .error (.stockInsuficiente info.product_name info.stock_disponible_kg req)) := by
  unfold StockService.validate_stock_disponible
  rw [hok]
  dsimp only
  by_cases hlt : info.stock_disponible_kg < req
  · rw [if_pos hlt]
    exact ⟨⟨(fun h => nomatch h), fun h => absurd h (not_le.mpr hlt)⟩, fun _ => rfl⟩
  · rw [if_neg hlt]
    exact ⟨⟨fun _ => not_lt.mp hlt, fun _ => rfl⟩, fun h => absurd h hlt⟩

/-- Concrete store where product 1 has 40 kg available (50 in, 10 sold). -/
def dbStock40 : DB :=
  { products := [kion]
    clients := [], ingresos := [], ingreso_lotes := []
    ingreso_items := [⟨1, "Prov", 1, 50, 20, (5:ℚ)/2, 40, 100⟩]
    ventas := [], venta_items := [⟨1, 1, 10, (1:ℚ)/2, 20, 2, 20⟩]
    payments := [], next_id := 2 }

/-- C6 witness: with 40 kg of product 1 available, requesting 41 kg is
rejected (with the exact `InsufficientStock` payload) and requesting 40 kg
is accepted, matching the iff of the theorem. -/
theorem C6_validate_stock_iff_witness :
    StockService.get_product_stock dbStock40 1 =
      .ok ⟨1, "Kion", 50, (5:ℚ)/2, 10, (1:ℚ)/2, 40⟩ ∧
    (StockService.validate_stock_disponible dbStock40 1 41 = .ok true ↔
      (41:ℚ) ≤ (StockService.StockInfo.mk 1 "Kion" 50 ((5:ℚ)/2) 10 ((1:ℚ)/2) 40).stock_disponible_kg) ∧
    StockService.validate_stock_disponible dbStock40 1 41 =
      .error (.stockInsuficiente "Kion" 40 41) ∧
    StockService.validate_stock_disponible dbStock40 1 40 = .ok true := by
  refine ⟨by with_unfolding_all decide, ?_,
    by with_unfolding_all decide, by with_unfolding_all decide⟩
  exact (C6_validate_stock_iff dbStock40 1 41 _ (by with_unfolding_all decide)).1

/-! ## C7 — intake line math -/

/-- C7: for positive inputs, `calculate_item_costs` returns
`total_javas = total_kg / conversion_factor`; `cost_per_java` is the input
scaled by the conversion factor in KG mode and unchanged in JAVA mode; and
`total_cost = cost_per_java * total_javas`.  In particular
`computeIntakeLine(100, 20, 2.5, KG)` yields `(5, 50, 250)`. -/
theorem C7_intake_line_math (kg cf ci : ℚ) (h1 : 0 < kg) (h2 : 0 < cf) (h3 : 0 < ci) :
    IngresoService.calculate_item_costs kg cf ci "KG" =
      .ok { total_javas := kg / cf, cost_per_java := ci * cf,
            total_cost := (ci * cf) * (kg / cf) } ∧
    IngresoService.calculate_item_costs kg cf ci "JAVA" =
      .ok { total_javas := kg / cf, cost_per_java := ci, total_cost := ci * (kg / cf) } ∧
    IngresoService.calculate_item_costs 100 20 (2.5 : ℚ) "KG" =
      .ok { total_javas := 5, cost_per_java := 50, total_cost := 250 } := by
  refine ⟨?_, ?_, by with_unfolding_all decide⟩ <;>
    simp [IngresoService.calculate_item_costs,
      not_le.mpr h1, not_le.mpr h2, not_le.mpr h3]

/-- C7 witness: the contract instantiated at the spec's example
`computeIntakeLine(100, 20, 2.5, KG)`. -/
theorem C7_intake_line_math_witness :
    IngresoService.calculate_item_costs 100 20 (2.5 : ℚ) "KG" =
      .ok { total_javas := (100:ℚ) / 20, cost_per_java := (2.5:ℚ) * 20,
            total_cost := ((2.5:ℚ) * 20) * ((100:ℚ) / 20) } :=
  (C7_intake_line_math 100 20 (2.5 : ℚ) (by with_unfolding_all decide)
    (by with_unfolding_all decide) (by with_unfolding_all decide)).1

/-! ## C8 — payments clamp the debt at zero -/

/-- Lemma: `List.find?` by id commutes with mapping an id-preserving update over the
client table. -/
lemma find?_clients_map (l : List Client) (cid : Nat) (f : Client → Client)
    (hf : ∀ c, (f c).id = c.id) :
    (l.map f).find? (fun c => c.id == cid) = (l.find? (fun c => c.id == cid)).map f := by
  have hcongr : ((fun c : Client => c.id == cid) ∘ f) = (fun c : Client => c.id == cid) :=
    funext fun c => by simp [Function.comp, hf]
  rw [List.find?_map, hcongr]

/-- C8: for an existing client and a positive amount, `create_payment`
creates the payment row and replaces the client's debt by
`max(0, current_debt − amount)`; nothing else changes. -/
theorem C8_payment_clamps_debt (db : DB) (cid : Nat) (amount : ℚ) (notes : Option String)
    (client : Client)
    (hfind : db.clients.find? (fun c => c.id == cid) = some client)
    (hpos : 0 < amount) :
    MainApi.create_payment db cid amount notes =
      .ok ({ db with
              payments := db.payments ++ [⟨cid, amount, notes⟩]
              clients := db.clients.map fun c =>
                if c.id = cid then
                  { c with current_debt := max 0 (client.current_debt - amount) }
                else c },
            ⟨cid, amount, notes⟩) := by
  rw [show max 0 (client.current_debt - amount) =
      if client.current_debt - amount < 0 then 0 else client.current_debt - amount from
    (clampZero_eq_max _).symm]
  unfold MainApi.create_payment
  rw [hfind]

/-- C8 witness: paying 150 against a debt of 100 clamps the balance at 0,
not −50. -/
theorem C8_payment_clamps_debt_witness :
    (([⟨1, "Ana", 100⟩] : List Client).find? (fun c => c.id == 1) = some ⟨1, "Ana", 100⟩) ∧
    (0:ℚ) < 150 ∧
    MainApi.create_payment
        { products := [], clients := [⟨1, "Ana", 100⟩], ingresos := []
          ingreso_lotes := [], ingreso_items := [], ventas := [], venta_items := []
          payments := [], next_id := 1 } 1 150 none =
      .ok ({ products := [], clients := [⟨1, "Ana", max 0 ((100:ℚ) - 150)⟩], ingresos := []
             ingreso_lotes := [], ingreso_items := [], ventas := [], venta_items := []
             payments := [⟨1, 150, none⟩], next_id := 1 },
           ⟨1, 150, none⟩) ∧
    max 0 ((100:ℚ) - 150) = 0 := by
  refine ⟨by with_unfolding_all decide, by with_unfolding_all decide, ?_, ?_⟩
  · exact C8_payment_clamps_debt _ 1 150 none ⟨1, "Ana", 100⟩
      (by with_unfolding_all decide) (by with_unfolding_all decide)
  · rw [← clampZero_eq_max]; with_unfolding_all decide

/-! ## C2 — the code never validates the payment amount (code bug) -/

/-- Store with a single client `Ana` carrying a debt of 100. -/
def dbAna : DB :=
  { products := [], clients := [⟨1, "Ana", 100⟩], ingresos := []
    ingreso_lotes := [], ingreso_items := [], ventas := [], venta_items := []
    payments := [], next_id := 1 }

/-- C2: the spec requires `recordPayment` to fail with InvalidInput whenever
`amount ≤ 0`, with no payment row and no debt change.  Neither the
`ClientPaymentCreate` schema nor the route checks the amount: at the failing
input (client with debt 100, amount −50) the call succeeds, persists the
payment row, and *increases* the debt to 150; at amount 0 it also succeeds
and persists a zero payment. -/
theorem C2_payment_amount_not_validated :
    MainApi.create_payment dbAna 1 (-50) none =
      .ok ({ dbAna with clients := [⟨1, "Ana", 150⟩], payments := [⟨1, -50, none⟩] },
        ⟨1, -50, none⟩) ∧
    MainApi.create_payment dbAna 1 0 none =
      .ok ({ dbAna with clients := [⟨1, "Ana", 100⟩], payments := [⟨1, 0, none⟩] },
        ⟨1, 0, none⟩) := by
  constructor <;> with_unfolding_all decide

/-! ## C10 — every product gets a stock entry; NotFound only for absent ids -/

/-- C10: the stock aggregation has an entry for every existing product, with
all totals 0 and average cost 0 when the product has no intake and no sale
line items; for such a product any positive request fails with
`InsufficientStock` (available 0), and `get_product_stock` yields `NotFound`
exactly when no product carries the requested id. -/
theorem C10_fresh_product_stock (db : DB) (p : Product) (pid : Nat) (req : ℚ)
    (hfind : db.products.find? (fun q => q.id == p.id) = some p)
    (hnoin : db.ingreso_items.filter (fun it => it.product_id == p.id) = [])
    (hnoout : db.venta_items.filter (fun it => it.product_id == p.id) = [])
    (hreq : 0 < req) :
    (p.id, StockService.stockInfoFor db p) ∈ StockService.get_stock_by_product db ∧
    StockService.stockInfoFor db p = ⟨p.id, p.name, 0, 0, 0, 0, 0⟩ ∧
    StockService.validate_stock_disponible db p.id req =
      .error (.stockInsuficiente p.name 0 req) ∧
    (db.products.find? (fun q => q.id == pid) = none ↔
      StockService.get_product_stock db pid = .error (.notFound "Producto" pid)) := by
  have hinfo : StockService.stockInfoFor db p = ⟨p.id, p.name, 0, 0, 0, 0, 0⟩ := by
    simp [StockService.stockInfoFor, StockService.totalIngresoKg,
      StockService.totalIngresoJavas, StockService.totalIngresoCost,
      StockService.totalVendidoKg, StockService.totalVendidoJavas, hnoin, hnoout]
  have hfindStock : ∀ q : Nat,
      (StockService.get_stock_by_product db).find? (fun pr => pr.1 == q) =
        (db.products.find? (fun r => r.id == q)).map
          (fun r => (r.id, StockService.stockInfoFor db r)) := by
    intro q
    unfold StockService.get_stock_by_product
    rw [List.find?_map]
    rfl
  refine ⟨?_, hinfo, ?_, ?_⟩
  · exact List.mem_map_of_mem _ (List.mem_of_find?_eq_some hfind)
  · have hgp : StockService.get_product_stock db p.id =
        .ok ⟨p.id, p.name, 0, 0, 0, 0, 0⟩ := by
      unfold StockService.get_product_stock
      rw [hfindStock p.id, hfind, Option.map_some', hinfo]
    have hz : (StockService.StockInfo.mk p.id p.name 0 0 0 0 0).stock_disponible_kg = 0 := by
      unfold StockService.StockInfo.stock_disponible_kg
      norm_num
    unfold StockService.validate_stock_disponible
    rw [hgp]
    dsimp only
    rw [hz, if_pos hreq]
  · unfold StockService.get_product_stock
    rw [hfindStock pid]
    cases hq : db.products.find? (fun r => r.id == pid) with
    | none => simp
    | some r => simp

/-- Store with one product (`kion`) and no history at all. -/
def dbFresh : DB :=
  { products := [kion]
    clients := [], ingresos := [], ingreso_lotes := [], ingreso_items := []
    ventas := [], venta_items := [], payments := [], next_id := 1 }

/-- C10 witness: on a store whose only product has no history, the
aggregation carries the all-zero entry, a request of 5 kg fails with
`InsufficientStock` (available 0), and id 2 — which exists for no product —
is the one that gives `NotFound`. -/
theorem C10_fresh_product_stock_witness :
    ((1 : Nat), StockService.stockInfoFor dbFresh kion) ∈
      StockService.get_stock_by_product dbFresh ∧
    StockService.stockInfoFor dbFresh kion = ⟨1, "Kion", 0, 0, 0, 0, 0⟩ ∧
    StockService.validate_stock_disponible dbFresh 1 5 =
      .error (.stockInsuficiente "Kion" 0 5) ∧
    (dbFresh.products.find? (fun q => q.id == 2) = none ↔
      StockService.get_product_stock dbFresh 2 = .error (.notFound "Producto" 2)) := by
  exact C10_fresh_product_stock dbFresh kion 2 5
    (by with_unfolding_all decide) (by with_unfolding_all decide)
    (by with_unfolding_all decide) (by with_unfolding_all decide)

/-! ## C1 — every mutating path keeps customer debt non-negative -/

/-- The debt invariant of the claim: every customer row carries a
non-negative `current_debt`. -/
def debts_nonneg (db : DB) : Prop := ∀ c ∈ db.clients, 0 ≤ c.current_debt

lemma update_client_nonneg (db : DB) (cid : Nat) (f : ℚ → ℚ)
    (hf : ∀ d, 0 ≤ d → 0 ≤ f d) (h : debts_nonneg db) :
    debts_nonneg (VentaService.update_client db cid f) := by
  intro c hc
  obtain ⟨c0, hc0, rfl⟩ := List.mem_map.mp hc
  by_cases hid : c0.id = cid
  · rw [if_pos hid]
    exact hf _ (h c0 hc0)
  · rw [if_neg hid]
    exact h c0 hc0

/-- A successful sale line produces a strictly positive subtotal. -/
lemma calculate_venta_item_pos (q cf p : ℚ) (c : VentaService.CalculatedVentaItem)
    (h : VentaService.calculate_venta_item q cf p = .ok c) : 0 < c.subtotal := by
  unfold VentaService.calculate_venta_item at h
  split at h
  · exact absurd h (by simp)
  · split at h
    · exact absurd h (by simp)
    · split at h
      · exact absurd h (by simp)
      · rename_i h1 h2 h3
        cases h
        exact mul_pos (not_le.mp h1) (not_le.mp h3)

/-- The create-sale item loop leaves clients, sales and the id generator
untouched and only grows the running total. -/
lemma process_venta_items_spec :
    ∀ (items : List VentaService.VentaItemData) (db : DB) (vid : Nat) (total : ℚ)
      (idx : Nat) (out : DB × ℚ),
      VentaService.process_venta_items db vid total idx items = .ok out →
      out.1.clients = db.clients ∧ out.1.ventas = db.ventas ∧
        out.1.next_id = db.next_id ∧ total ≤ out.2 := by
  intro items
  induction items with
  | nil =>
    intro db vid total idx out h
    unfold VentaService.process_venta_items at h
    cases h
    exact ⟨rfl, rfl, rfl, le_refl _⟩
  | cons item rest ih =>
    intro db vid total idx out h
    unfold VentaService.process_venta_items at h
    dsimp only at h
    split at h
    · exact absurd h (by simp)
    · split at h
      · exact absurd h (by simp)
      · split at h
        · exact absurd h (by simp)
        · split at h
          · exact absurd h (by simp)
          · rename_i product hfind v hval calculated hcalc
            obtain ⟨h1, h2, h3, h4⟩ := ih _ _ _ _ _ h
            exact ⟨h1.trans rfl, h2.trans rfl, h3.trans rfl,
              le_trans (le_add_of_nonneg_right
                (calculate_venta_item_pos _ _ _ _ hcalc).le) h4⟩

/-- Same facts for the update-sale item loop (no stock validation there). -/
lemma process_venta_items_update_spec :
    ∀ (items : List VentaService.VentaItemData) (db : DB) (vid : Nat) (total : ℚ)
      (idx : Nat) (out : DB × ℚ),
      VentaService.process_venta_items_update db vid total idx items = .ok out →
      out.1.clients = db.clients ∧ out.1.ventas = db.ventas ∧
        out.1.next_id = db.next_id ∧ total ≤ out.2 := by
  intro items
  induction items with
  | nil =>
    intro db vid total idx out h
    unfold VentaService.process_venta_items_update at h
    cases h
    exact ⟨rfl, rfl, rfl, le_refl _⟩
  | cons item rest ih =>
    intro db vid total idx out h
    unfold VentaService.process_venta_items_update at h
    dsimp only at h
    split at h
    · exact absurd h (by simp)
    · split at h
      · exact absurd h (by simp)
      · split at h
        · exact absurd h (by simp)
        · rename_i product hfind calculated hcalc
          obtain ⟨h1, h2, h3, h4⟩ := ih _ _ _ _ _ h
          exact ⟨h1.trans rfl, h2.trans rfl, h3.trans rfl,
            le_trans (le_add_of_nonneg_right
              (calculate_venta_item_pos _ _ _ _ hcalc).le) h4⟩

/-- The reversal block maps a non-negative debt table to a non-negative debt
table (it clamps at zero). -/
lemma revert_client_debt_nonneg (db : DB) (venta : Venta) (h : debts_nonneg db) :
    debts_nonneg (VentaService.revert_client_debt db venta) := by
  unfold VentaService.revert_client_debt
  split
  · exact update_client_nonneg _ _ _ (fun d hd => clampZero_nonneg _) h
  · exact h

set_option maxHeartbeats 2000000 in
/-- C1: starting from a store where every customer debt is ≥ 0, each core
mutating operation — createSale, updateSale, deleteSale, recordPayment —
leaves every customer debt ≥ 0: the debt-decreasing paths clamp at zero and
credit-sale creation only adds the (positive) sale total. -/
theorem C1_debt_nonneg_invariant (db : DB) (now uid vid pcid : Nat) (vt : VentaType)
    (items : List VentaService.VentaItemData) (cid : Option Nat)
    (amount : ℚ) (notes : Option String)
    (dbA dbB dbC dbD : DB) (vidA : Nat) (pay : ClientPayment)
    (h0 : debts_nonneg db) :
    (VentaService.create_venta db now uid vt items cid = .ok (dbA, vidA) →
      debts_nonneg dbA) ∧
    (VentaService.delete_venta db vid = .ok dbB → debts_nonneg dbB) ∧
    (VentaService.update_venta db now vid items cid = .ok dbC → debts_nonneg dbC) ∧
    (MainApi.create_payment db pcid amount notes = .ok (dbD, pay) → debts_nonneg dbD) := by
  refine ⟨?_, ?_, ?_, ?_⟩
  -- createSale
  · intro h
    unfold VentaService.create_venta at h
    split at h
    · exact absurd h (by simp)
    · split at h
      · exact absurd h (by simp)
      · dsimp only at h
        split at h
        · exact absurd h (by simp)
        · rename_i hclient
          split at h
          · exact absurd h (by simp)
          · rename_i db2 total heq
            have hspec := process_venta_items_spec _ _ _ _ _ _ heq
            have hclients : db2.clients = db.clients := hspec.1.trans rfl
            have htotal : (0:ℚ) ≤ total := hspec.2.2.2
            have hbase : debts_nonneg
                (VentaService.update_venta_record db2 (db.next_id)
                  (fun v => { v with total_amount := total })) := by
              intro c hc
              exact h0 c (by rwa [show (VentaService.update_venta_record db2 (db.next_id)
                (fun v => { v with total_amount := total })).clients = db.clients
                from hclients] at hc)
            split at h
            · cases h
              exact update_client_nonneg _ _ _ (fun d hd => add_nonneg hd htotal) hbase
            · cases h
              exact hbase
  -- deleteSale
  · intro h
    unfold VentaService.delete_venta at h
    split at h
    · exact absurd h (by simp)
    · rename_i venta hget
      dsimp only at h
      cases h
      intro c hc
      have hc1 : c ∈ (VentaService.revert_client_debt db venta).clients := hc
      exact revert_client_debt_nonneg db venta h0 c hc1
  -- updateSale
  · intro h
    unfold VentaService.update_venta at h
    split at h
    · exact absurd h (by simp)
    · rename_i venta hget
      split at h
      · exact absurd h (by simp)
      · split at h
        · exact absurd h (by simp)
        · dsimp only at h
          split at h
          · exact absurd h (by simp)
          · rename_i hc2
            split at h
            · exact absurd h (by simp)
            · rename_i db3 total heq
              have hspec := process_venta_items_update_spec _ _ _ _ _ _ heq
              have htotal : (0:ℚ) ≤ total := hspec.2.2.2
              cases h
              have hrev : debts_nonneg (VentaService.revert_client_debt db venta) :=
                revert_client_debt_nonneg db venta h0
              have hX : ∀ c ∈ db3.clients, 0 ≤ c.current_debt := by
                intro c hc
                refine hrev c ?_
                rwa [hspec.1.trans rfl] at hc
              split <;> split
              · exact update_client_nonneg _ _ _ (fun d hd => add_nonneg hd htotal)
                  (fun c hc => hX c hc)
              · exact fun c hc => hX c hc
              · exact update_client_nonneg _ _ _ (fun d hd => add_nonneg hd htotal)
                  (fun c hc => hX c hc)
              · exact fun c hc => hX c hc
  -- recordPayment
  · intro h
    unfold MainApi.create_payment at h
    split at h
    · exact absurd h (by simp)
    · rename_i db_client hfind
      dsimp only at h
      cases h
      intro c hc
      obtain ⟨c0, hc0, rfl⟩ := List.mem_map.mp hc
      by_cases hid : c0.id = pcid
      · rw [if_pos hid]
        exact clampZero_nonneg _
      · rw [if_neg hid]
        exact h0 c0 hc0

/-! ## C4 — credit-sale debt round trip -/

set_option maxHeartbeats 2000000 in
/-- C4: for a customer with non-negative debt `d`, creating a CREDIT
(PEDIDO) sale sets the debt to `d + T` where `T` is the created sale's
`total_amount`, and deleting that same sale (with no intervening mutation)
restores the debt to `d`.  `hfresh` is the primary-key freshness invariant of
the id generator. -/
theorem C4_credit_sale_roundtrip (db : DB) (now uid cid : Nat)
    (items : List VentaService.VentaItemData) (client : Client) (db1 : DB) (vid : Nat)
    (hfresh : ∀ v ∈ db.ventas, v.id < db.next_id)
    (hfind : db.clients.find? (fun c => c.id == cid) = some client)
    (hd : 0 ≤ client.current_debt)
    (hcreate : VentaService.create_venta db now uid .PEDIDO items (some cid) =
      .ok (db1, vid)) :
    ∃ venta : Venta,
      db1.ventas.find? (fun v => v.id == vid) = some venta ∧
      venta.type = .PEDIDO ∧
      (db1.clients.find? (fun c => c.id == cid)).map Client.current_debt =
        some (client.current_debt + venta.total_amount) ∧
      ∃ db2 : DB, VentaService.delete_venta db1 vid = .ok db2 ∧
        (db2.clients.find? (fun c => c.id == cid)).map Client.current_debt =
          some client.current_debt := by
  have hidc : client.id = cid := by
    have hp := List.find?_some hfind
    simp only [] at hp
    exact eq_of_beq hp
  unfold VentaService.create_venta at hcreate
  split at hcreate
  · exact absurd hcreate (by simp)
  · rename_i hg1
    have hcid : cid ≠ 0 := fun hz => hg1 ⟨rfl, hz⟩
    split at hcreate
    · exact absurd hcreate (by simp)
    · rename_i hg2
      dsimp only at hcreate
      split at hcreate
      · exact absurd hcreate (by simp)
      · rename_i hg3
        split at hcreate
        · exact absurd hcreate (by simp)
        · rename_i db2 total heq
          split at hcreate
          case isFalse hcond => exact absurd ⟨rfl, hcid⟩ hcond
          case isTrue hcond =>
          cases hcreate
          set db1 : DB := VentaService.update_client
            (VentaService.update_venta_record db2 db.next_id
              (fun v => { v with total_amount := total }))
            ((some cid).getD 0) (fun d => d + total) with hdb1
          have hspec := process_venta_items_spec _ _ _ _ _ _ heq
          have hcl2 : db2.clients = db.clients := hspec.1.trans rfl
          have hven2 : db2.ventas = db.ventas ++
              [{ id := db.next_id, date := now, type := .PEDIDO, client_id := some cid,
                 user_id := uid, total_amount := 0, is_printed := false }] :=
            hspec.2.1.trans rfl
          -- the two row-update functions preserve ids
          have hgid : ∀ v : Venta, (if v.id = db.next_id then
              ({ v with total_amount := total } : Venta) else v).id = v.id := by
            intro v
            by_cases hv : v.id = db.next_id
            · rw [if_pos hv]
            · rw [if_neg hv]
          have hfaddid : ∀ c : Client, (if c.id = cid then
              ({ c with current_debt := c.current_debt + total } : Client) else c).id = c.id := by
            intro c
            by_cases hc : c.id = cid
            · rw [if_pos hc]
            · rw [if_neg hc]
          -- the persisted sale row
          have hvenmap : db1.ventas = (db.ventas ++
              [({ id := db.next_id, date := now, type := .PEDIDO, client_id := some cid,
                  user_id := uid, total_amount := 0, is_printed := false } : Venta)]).map
                (fun v => if v.id = db.next_id then { v with total_amount := total } else v) := by
            rw [show db1.ventas = db2.ventas.map
              (fun v => if v.id = db.next_id then { v with total_amount := total } else v)
              from rfl, hven2]
          have hfindVenta : db1.ventas.find? (fun v => v.id == db.next_id) =
              some { id := db.next_id, date := now, type := .PEDIDO, client_id := some cid,
                     user_id := uid, total_amount := total, is_printed := false } := by
            rw [hvenmap, List.map_append, List.find?_append]
            have hnone : ((db.ventas.map
                (fun v => if v.id = db.next_id then { v with total_amount := total } else v)).find?
                  (fun v => v.id == db.next_id)) = none := by
              refine List.find?_eq_none.mpr ?_
              intro x hx
              obtain ⟨v, hv, rfl⟩ := List.mem_map.mp hx
              have hne : v.id ≠ db.next_id := Nat.ne_of_lt (hfresh v hv)
              simp [hgid v, hne]
            rw [hnone]
            simp
          -- the updated client table
          have hclmap : db1.clients = db.clients.map
              (fun c => if c.id = cid then
                { c with current_debt := c.current_debt + total } else c) := by
            rw [show db1.clients = db2.clients.map
              (fun c => if c.id = cid then
                { c with current_debt := c.current_debt + total } else c)
              from rfl, hcl2]
          have hfindClient : db1.clients.find? (fun c => c.id == cid) =
              some { client with current_debt := client.current_debt + total } := by
            rw [hclmap, find?_clients_map _ _ _ hfaddid, hfind, Option.map_some']
            simp [hidc]
          refine ⟨_, hfindVenta, rfl, ?_, ?_⟩
          · rw [hfindClient]
            rfl
          · -- deletion
            have hget : VentaService.get_venta db1 db.next_id =
                .ok { id := db.next_id, date := now, type := .PEDIDO, client_id := some cid,
                      user_id := uid, total_amount := total, is_printed := false } := by
              unfold VentaService.get_venta
              rw [hfindVenta]
            have hclampid : ∀ c : Client, (if c.id = cid then
                ({ c with current_debt :=
                    if c.current_debt - total < 0 then 0 else c.current_debt - total } :
                  Client) else c).id = c.id := by
              intro c
              by_cases hc : c.id = cid
              · rw [if_pos hc]
              · rw [if_neg hc]
            have hrev : VentaService.revert_client_debt db1
                { id := db.next_id, date := now, type := .PEDIDO, client_id := some cid,
                  user_id := uid, total_amount := total, is_printed := false } =
                VentaService.update_client db1 ((some cid).getD 0)
                  (fun d => let d1 := d - total; if d1 < 0 then 0 else d1) := by
              unfold VentaService.revert_client_debt
              split
              · rfl
              · rename_i hcond2
                refine absurd ⟨rfl, hcid, ?_⟩ hcond2
                have hfindClient2 :
                    List.find?
                      (fun c => c.id ==
                        ({ id := db.next_id, date := now, type := VentaType.PEDIDO,
                           client_id := some cid, user_id := uid, total_amount := total,
                           is_printed := false } : Venta).client_id.getD 0)
                      db1.clients =
                      some { client with current_debt := client.current_debt + total } :=
                  hfindClient
                rw [hfindClient2]
                rfl
            refine ⟨(show DB from
                let dbR := VentaService.update_client db1 ((some cid).getD 0)
                  (fun d => let d1 := d - total; if d1 < 0 then 0 else d1)
                { dbR with
                  ventas := dbR.ventas.filter (fun v => v.id ≠ db.next_id)
                  venta_items := dbR.venta_items.filter
                    (fun it => it.venta_id ≠ db.next_id) }), ?_, ?_⟩
            · unfold VentaService.delete_venta
              rw [hget]
              dsimp only
              rw [hrev]
            · show ((db1.clients.map (fun c => if c.id = cid then
                { c with current_debt :=
                    if c.current_debt - total < 0 then 0 else c.current_debt - total }
                else c)).find? (fun c => c.id == cid)).map Client.current_debt =
                some client.current_debt
              rw [find?_clients_map _ _ _ hclampid, hfindClient]
              simp only [hidc, Option.map_some', if_true, Option.some.injEq]
              show (if client.current_debt + total - total < 0 then 0
                else client.current_debt + total - total) = client.current_debt
              rw [add_sub_cancel_right, if_neg (not_lt.mpr hd)]

/-! ## C9 — the intake batch date is always the Lima clock -/

/-- The intake item loop never touches the `ingreso_lotes` table. -/
lemma process_ingreso_items_lotes :
    ∀ (items : List IngresoService.IngresoItemData) (db : DB) (lid idx : Nat) (db2 : DB),
      IngresoService.process_ingreso_items db lid idx items = .ok db2 →
      db2.ingreso_lotes = db.ingreso_lotes := by
  intro items
  induction items with
  | nil =>
    intro db lid idx db2 h
    unfold IngresoService.process_ingreso_items at h
    cases h
    rfl
  | cons it rest ih =>
    intro db lid idx db2 h
    unfold IngresoService.process_ingreso_items at h
    dsimp only at h
    split at h
    · exact absurd h (by simp)
    · split at h
      · exact absurd h (by simp)
      · split at h
        · exact absurd h (by simp)
        · split at h
          · exact absurd h (by simp)
          · exact (ih _ _ _ _ h).trans rfl

/-- C9: `create_ingreso_lote` ignores its `date` argument: every successful
call stamps the persisted batch with the `now_lima` clock value, appends it
to the batch table, and returns exactly what the date-less call returns. -/
theorem C9_intake_date_ignored (db : DB) (now : Nat) (truck : String)
    (items : List IngresoService.IngresoItemData) (d : Option Nat)
    (db1 : DB) (lote : IngresoLote)
    (h : IngresoService.create_ingreso_lote db now truck items d = .ok (db1, lote)) :
    lote.date = now ∧
    db1.ingreso_lotes = db.ingreso_lotes ++ [lote] ∧
    IngresoService.create_ingreso_lote db now truck items none = .ok (db1, lote) := by
  unfold IngresoService.create_ingreso_lote at h ⊢
  split at h
  case isTrue h1 => exact absurd h (by simp)
  case isFalse h1 =>
    split at h
    case isTrue h2 => exact absurd h (by simp)
    case isFalse h2 =>
      rw [if_neg h1, if_neg h2]
      dsimp only at h ⊢
      split at h
      · exact absurd h (by simp)
      · rename_i db2 heq
        cases h
        exact ⟨rfl, (process_ingreso_items_lotes items _ _ _ _ heq).trans rfl, rfl⟩

/-! ## C3 — the legacy sale route validates each line against the running
in-memory snapshot -/

lemma consumedJavas_nil (pid : Nat) : RoutersVentas.consumedJavas [] pid = 0 := rfl

lemma consumedJavas_cons (d : RoutersVentas.LegacyItemData)
    (ds : List RoutersVentas.LegacyItemData) (pid : Nat) :
    RoutersVentas.consumedJavas (d :: ds) pid =
      (if d.product_id == pid then d.quantity_javas else 0) +
        RoutersVentas.consumedJavas ds pid := by
  unfold RoutersVentas.consumedJavas
  rw [List.filter_cons]
  by_cases h : (d.product_id == pid) = true
  · simp [h]
  · simp [h]

/-- Loop invariant of the route's item loop: on success, the final snapshot
equals the initial snapshot minus everything the processed lines consumed,
and each processed line's quantity fit within the snapshot remaining after
the lines before it. -/
lemma router_process_items_spec :
    ∀ (items : List RoutersVentas.LegacyVentaItemIn) (db : DB) (stock : Nat → ℚ)
      (total : ℚ) (acc : List RoutersVentas.LegacyItemData)
      (out : (Nat → ℚ) × ℚ × List RoutersVentas.LegacyItemData),
      RoutersVentas.process_items db stock total acc items = .ok out →
      ∃ news : List RoutersVentas.LegacyItemData,
        out.2.2 = acc ++ news ∧
        (∀ pid, out.1 pid = stock pid - RoutersVentas.consumedJavas news pid) ∧
        ∀ j (hj : j < news.length),
          (news.get ⟨j, hj⟩).quantity_javas ≤
            stock ((news.get ⟨j, hj⟩).product_id) -
              RoutersVentas.consumedJavas (news.take j) ((news.get ⟨j, hj⟩).product_id) := by
  intro items
  induction items with
  | nil =>
    intro db stock total acc out h
    unfold RoutersVentas.process_items at h
    cases h
    refine ⟨[], by simp, fun pid => by simp [RoutersVentas.consumedJavas], ?_⟩
    intro j hj
    exact absurd hj (by simp)
  | cons item rest ih =>
    intro db stock total acc out h
    unfold RoutersVentas.process_items at h
    dsimp only at h
    split at h
    · exact absurd h (by simp)
    · rename_i product hfind
      split at h
      · exact absurd h (by simp)
      · rename_i hgt
        obtain ⟨news1, hout, hstock, hbound⟩ := ih _ _ _ _ _ h
        refine ⟨{ product_id := item.product_id
                  quantity_javas := RoutersVentas.item_javas product item
                  quantity_original := item.quantity_javas
                  unit := RoutersVentas.item_unit item
                  unit_sale_price := item.unit_sale_price } :: news1, ?_, ?_, ?_⟩
        · rw [hout, List.append_assoc]
          rfl
        · intro pid
          rw [hstock pid, consumedJavas_cons]
          simp only []
          by_cases hpid : pid = item.product_id
          · rw [if_pos hpid, if_pos (by exact beq_iff_eq.mpr hpid.symm), hpid, sub_sub]
          · rw [if_neg hpid,
              if_neg (by simp only [beq_iff_eq]; exact fun he => hpid he.symm), zero_add]
        · intro j hj
          cases j with
          | zero =>
            show RoutersVentas.item_javas product item ≤
              stock item.product_id -
                RoutersVentas.consumedJavas ([].take 0) item.product_id
            have : RoutersVentas.consumedJavas ([].take 0) item.product_id = 0 := rfl
            rw [this, sub_zero]
            exact not_lt.mp hgt
          | succ j =>
            have hj1 : j < news1.length := by simpa using hj
            have hb := hbound j hj1
            simp only [] at hb
            show (news1.get ⟨j, hj1⟩).quantity_javas ≤
              stock ((news1.get ⟨j, hj1⟩).product_id) -
                RoutersVentas.consumedJavas
                  ({ product_id := item.product_id
                     quantity_javas := RoutersVentas.item_javas product item
                     quantity_original := item.quantity_javas
                     unit := RoutersVentas.item_unit item
                     unit_sale_price := item.unit_sale_price } :: news1.take j)
                  ((news1.get ⟨j, hj1⟩).product_id)
            rw [consumedJavas_cons]
            by_cases hpid : (news1.get ⟨j, hj1⟩).product_id = item.product_id
            · rw [if_pos (by exact beq_iff_eq.mpr hpid.symm)]
              rw [hpid] at hb ⊢
              rw [if_pos rfl] at hb
              rw [sub_sub] at hb
              exact hb
            · rw [if_neg (by simp only [beq_iff_eq]; exact fun he => hpid he.symm), zero_add]
              rw [if_neg (fun he => hpid he)] at hb
              exact hb

/-- The product used by the snapshot demonstration store. -/
def dbJava50 : DB :=
  { products := [kion]
    clients := []
    ingresos := [⟨1, "T-1", "Prov", 1, 1000, 20, 50, 5⟩]
    ingreso_lotes := [], ingreso_items := [], ventas := [], venta_items := []
    payments := [], next_id := 2 }

/-- A 30-java line of product 1 at unit price 10. -/
def itemJ30 : RoutersVentas.LegacyVentaItemIn := ⟨1, 30, some "JAVA", 10⟩

set_option maxHeartbeats 1000000 in
/-- C3: on the sale route, the stock check runs against an in-memory snapshot
decremented after each validated line: on success the final snapshot equals
the pre-sale stock minus everything consumed, and every line's quantity fits
within the pre-sale stock minus what the *earlier lines of the same sale*
consumed.  Concretely, with 50 javas on hand two 30-java lines of the same
product are rejected at the second line even though each line alone passes
against the pre-sale total. -/
theorem C3_running_stock_snapshot (db : DB)
    (items : List RoutersVentas.LegacyVentaItemIn)
    (out : (Nat → ℚ) × ℚ × List RoutersVentas.LegacyItemData) (pid j : Nat)
    (h : RoutersVentas.create_venta_stock_phase db items = .ok out)
    (hj : j < out.2.2.length) :
    out.1 pid = RoutersVentas.get_stock_map db pid -
      RoutersVentas.consumedJavas out.2.2 pid ∧
    (out.2.2.get ⟨j, hj⟩).quantity_javas ≤
      RoutersVentas.get_stock_map db ((out.2.2.get ⟨j, hj⟩).product_id) -
        RoutersVentas.consumedJavas (out.2.2.take j)
          ((out.2.2.get ⟨j, hj⟩).product_id) ∧
    (RoutersVentas.create_venta_stock_phase dbJava50 [itemJ30, itemJ30]).isOk = false ∧
    (RoutersVentas.create_venta_stock_phase dbJava50 [itemJ30]).isOk = true := by
  obtain ⟨news, hout, hstock, hbound⟩ :=
    router_process_items_spec items db (RoutersVentas.get_stock_map db) 0 [] out h
  have hnews : out.2.2 = news := by simpa using hout
  refine ⟨?_, ?_, by with_unfolding_all decide, by with_unfolding_all decide⟩
  · rw [show RoutersVentas.consumedJavas out.2.2 pid =
      RoutersVentas.consumedJavas news pid from by rw [hnews]]
    exact hstock pid
  · obtain rfl : news = out.2.2 := hnews.symm
    exact hbound j hj

/-! ## Concrete stores and witnesses for the workflow theorems -/

/-- A store with one product (plenty of stock), one indebted client and one
existing PEDIDO sale, on which all four mutating operations succeed. -/
def dbW1 : DB :=
  { products := [kion]
    clients := [⟨1, "Juan", 100⟩]
    ingresos := []
    ingreso_lotes := []
    ingreso_items := [⟨1, "Prov", 1, 1000, 20, 50, 5, 250⟩]
    ventas := [⟨1, 5, .PEDIDO, some 1, 7, 40, false⟩]
    venta_items := [⟨1, 1, 4, 1/5, 20, 10, 40⟩]
    payments := [], next_id := 2 }

/-- Result of creating a 25 kg × 10 PEDIDO sale on `dbW1`. -/
def dbW1A : DB :=
  { dbW1 with
    clients := [⟨1, "Juan", 350⟩]
    ventas := [⟨1, 5, .PEDIDO, some 1, 7, 40, false⟩,
               ⟨2, 9, .PEDIDO, some 1, 7, 250, false⟩]
    venta_items := [⟨1, 1, 4, 1/5, 20, 10, 40⟩, ⟨2, 1, 25, 5/4, 20, 10, 250⟩]
    next_id := 3 }

/-- Result of deleting sale 1 on `dbW1`. -/
def dbW1B : DB :=
  { dbW1 with clients := [⟨1, "Juan", 60⟩], ventas := [], venta_items := [] }

/-- Result of updating sale 1 on `dbW1` to a single 25 kg × 10 line. -/
def dbW1C : DB :=
  { dbW1 with
    clients := [⟨1, "Juan", 310⟩]
    ventas := [⟨1, 9, .PEDIDO, some 1, 7, 250, false⟩]
    venta_items := [⟨1, 1, 25, 5/4, 20, 10, 250⟩] }

/-- Result of recording a payment of 150 against the debt of 100 on `dbW1`. -/
def dbW1D : DB :=
  { dbW1 with clients := [⟨1, "Juan", 0⟩], payments := [⟨1, 150, none⟩] }

set_option maxRecDepth 100000 in
/-- C1 witness: on `dbW1` (all debts ≥ 0) all four operations succeed and the
invariant theorem applies to each of them. -/
theorem C1_debt_nonneg_invariant_witness :
    (∀ c ∈ dbW1.clients, (0:ℚ) ≤ c.current_debt) ∧
    ((VentaService.create_venta dbW1 9 7 .PEDIDO [⟨some 1, 25, 10⟩] (some 1) =
        .ok (dbW1A, 2) → debts_nonneg dbW1A) ∧
      (VentaService.delete_venta dbW1 1 = .ok dbW1B → debts_nonneg dbW1B) ∧
      (VentaService.update_venta dbW1 9 1 [⟨some 1, 25, 10⟩] (some 1) = .ok dbW1C →
        debts_nonneg dbW1C) ∧
      (MainApi.create_payment dbW1 1 150 none = .ok (dbW1D, ⟨1, 150, none⟩) →
        debts_nonneg dbW1D)) ∧
    VentaService.create_venta dbW1 9 7 .PEDIDO [⟨some 1, 25, 10⟩] (some 1) =
      .ok (dbW1A, 2) ∧
    VentaService.delete_venta dbW1 1 = .ok dbW1B ∧
    VentaService.update_venta dbW1 9 1 [⟨some 1, 25, 10⟩] (some 1) = .ok dbW1C ∧
    MainApi.create_payment dbW1 1 150 none = .ok (dbW1D, ⟨1, 150, none⟩) := by
  refine ⟨by with_unfolding_all decide, ?_, by with_unfolding_all decide,
    by with_unfolding_all decide, by with_unfolding_all decide,
    by with_unfolding_all decide⟩
  exact C1_debt_nonneg_invariant dbW1 9 7 1 1 .PEDIDO [⟨some 1, 25, 10⟩] (some 1)
    150 none dbW1A dbW1B dbW1C dbW1D 2 ⟨1, 150, none⟩
    (by exact (by with_unfolding_all decide : ∀ c ∈ dbW1.clients, (0:ℚ) ≤ c.current_debt))

/-- A store with one product, one debt-free client and no sales yet. -/
def dbShop : DB :=
  { products := [kion]
    clients := [⟨1, "Juan", 0⟩]
    ingresos := []
    ingreso_lotes := []
    ingreso_items := [⟨1, "Prov", 1, 1000, 20, 50, 5, 250⟩]
    ventas := [], venta_items := [], payments := [], next_id := 2 }

/-- Result of creating a 250.00 PEDIDO sale on `dbShop`. -/
def dbShopA : DB :=
  { dbShop with
    clients := [⟨1, "Juan", 250⟩]
    ventas := [⟨2, 9, .PEDIDO, some 1, 7, 250, false⟩]
    venta_items := [⟨2, 1, 25, 5/4, 20, 10, 250⟩]
    next_id := 3 }

/-- Result of deleting that sale again. -/
def dbShopDel : DB :=
  { dbShop with clients := [⟨1, "Juan", 0⟩], next_id := 3 }

set_option maxRecDepth 100000 in
/-- C4 witness: from debt 0, a CREDIT sale of total 250.00 raises the debt to
250.00 and deleting it restores 0.00. -/
theorem C4_credit_sale_roundtrip_witness :
    (∀ v ∈ dbShop.ventas, v.id < dbShop.next_id) ∧
    dbShop.clients.find? (fun c => c.id == 1) = some ⟨1, "Juan", 0⟩ ∧
    (0:ℚ) ≤ (0:ℚ) ∧
    VentaService.create_venta dbShop 9 7 .PEDIDO [⟨some 1, 25, 10⟩] (some 1) =
      .ok (dbShopA, 2) ∧
    (dbShopA.clients.find? (fun c => c.id == 1)).map Client.current_debt = some 250 ∧
    VentaService.delete_venta dbShopA 2 = .ok dbShopDel ∧
    (dbShopDel.clients.find? (fun c => c.id == 1)).map Client.current_debt = some 0 ∧
    (∃ venta : Venta,
      dbShopA.ventas.find? (fun v => v.id == 2) = some venta ∧
      venta.type = .PEDIDO ∧
      (dbShopA.clients.find? (fun c => c.id == 1)).map Client.current_debt =
        some ((0:ℚ) + venta.total_amount) ∧
      ∃ db2 : DB, VentaService.delete_venta dbShopA 2 = .ok db2 ∧
        (db2.clients.find? (fun c => c.id == 1)).map Client.current_debt =
          some (0:ℚ)) := by
  refine ⟨by with_unfolding_all decide, by with_unfolding_all decide,
    by with_unfolding_all decide, by with_unfolding_all decide,
    by with_unfolding_all decide, by with_unfolding_all decide,
    by with_unfolding_all decide, ?_⟩
  exact C4_credit_sale_roundtrip dbShop 9 7 1 [⟨some 1, 25, 10⟩] ⟨1, "Juan", 0⟩
    dbShopA 2 (by with_unfolding_all decide) (by with_unfolding_all decide)
    (by with_unfolding_all decide) (by with_unfolding_all decide)

/-- Result of the intake batch created on `dbShop` (truck ABC-123, one item of
100 kg at 5 per java, clock value 7, caller-supplied date 999 ignored). -/
def dbShopI : DB :=
  { dbShop with
    ingreso_lotes := [⟨2, 7, "ABC-123"⟩]
    ingreso_items := [⟨1, "Prov", 1, 1000, 20, 50, 5, 250⟩,
                      ⟨2, "Prov", 1, 100, 20, 5, 5, 25⟩]
    next_id := 3 }

set_option maxRecDepth 100000 in
/-- C9 witness: a successful batch creation with a caller-supplied date 999
stamps the batch with the clock value 7 and equals the date-less call. -/
theorem C9_intake_date_ignored_witness :
    IngresoService.create_ingreso_lote dbShop 7 "ABC-123"
        [⟨"Prov", some 1, 100, some 20, 5, some "JAVA"⟩] (some 999) =
      .ok (dbShopI, ⟨2, 7, "ABC-123"⟩) ∧
    (IngresoLote.mk 2 7 "ABC-123").date = 7 ∧
    dbShopI.ingreso_lotes = dbShop.ingreso_lotes ++ [⟨2, 7, "ABC-123"⟩] ∧
    IngresoService.create_ingreso_lote dbShop 7 "ABC-123"
        [⟨"Prov", some 1, 100, some 20, 5, some "JAVA"⟩] none =
      .ok (dbShopI, ⟨2, 7, "ABC-123"⟩) := by
  refine ⟨by with_unfolding_all decide, ?_⟩
  exact C9_intake_date_ignored dbShop 7 "ABC-123"
    [⟨"Prov", some 1, 100, some 20, 5, some "JAVA"⟩] (some 999) dbShopI
    ⟨2, 7, "ABC-123"⟩ (by with_unfolding_all decide)

/-- The snapshot and line data after running the stock phase of the route on
`dbJava50` with the single line `itemJ30`. -/
def routerOutW : (Nat → ℚ) × ℚ × List RoutersVentas.LegacyItemData :=
  (fun q => if q = 1 then 20 else RoutersVentas.get_stock_map dbJava50 q, 300,
   [⟨1, 30, 30, "JAVA", 10⟩])

set_option maxRecDepth 100000 in
/-- C3 witness: the single 30-java line on a 50-java stock passes, leaves the
snapshot at 20 javas for product 1, and satisfies the remaining-stock bound. -/
theorem C3_running_stock_snapshot_witness :
    RoutersVentas.create_venta_stock_phase dbJava50 [itemJ30] = .ok routerOutW ∧
    0 < routerOutW.2.2.length ∧
    (routerOutW.1 1 = RoutersVentas.get_stock_map dbJava50 1 -
        RoutersVentas.consumedJavas routerOutW.2.2 1 ∧
      (routerOutW.2.2.get ⟨0, by with_unfolding_all decide⟩).quantity_javas ≤
        RoutersVentas.get_stock_map dbJava50
            ((routerOutW.2.2.get ⟨0, by with_unfolding_all decide⟩).product_id) -
          RoutersVentas.consumedJavas (routerOutW.2.2.take 0)
            ((routerOutW.2.2.get ⟨0, by with_unfolding_all decide⟩).product_id) ∧
      (RoutersVentas.create_venta_stock_phase dbJava50 [itemJ30, itemJ30]).isOk =
        false ∧
      (RoutersVentas.create_venta_stock_phase dbJava50 [itemJ30]).isOk = true) := by
  refine ⟨by with_unfolding_all rfl, by with_unfolding_all decide, ?_⟩
  exact C3_running_stock_snapshot dbJava50 [itemJ30] routerOutW 1 0
    (by with_unfolding_all rfl) (by with_unfolding_all decide)
